import Mathlib

/-!
Verification of the milo-firmware conversational session core
(`src/asyncelevenlabs/conversation.py` and `src/asyncelevenlabs/audio.py`).

The Python code is shallowly embedded: JSON values decoded by `json.loads`
become the inductive `Json`; each stateful method becomes a pure function
from an explicit state to a new state together with a list of observable
effects (messages sent on the socket, frames forwarded to the audio
capability, background tasks spawned for user callbacks) and an optional
Python exception that escaped the method.
-/

namespace Milo

/-- JSON values as produced by `json.loads`, restricted to the shapes the
protocol uses (null, booleans, integers, strings, objects).  `Json.null`
also stands for Python `None`, which is what `json.loads` decodes `null`
to and what `dict.get` returns for a missing key. -/
inductive Json where
  | null : Json
  | bool (b : Bool) : Json
  | int (n : Int) : Json
  | str (s : String) : Json
  | obj (fields : List (String × Json)) : Json

/-- Python exceptions that the embedded code can raise. -/
inductive PyError where
  | keyError (key : String)
  | valueError (msg : String)
  | typeError (msg : String)
  | attributeError (msg : String)
  | runtimeError (msg : String)
deriving DecidableEq

/-- First-match association-list lookup, the embedding of reading a key of a
Python dict (dict keys are unique, so first-match agrees with dict lookup). -/
def lookupField {α : Type} : List (String × α) → String → Option α
  | [], _ => none
  | (k, v) :: rest, key => if k = key then some v else lookupField rest key

/-- Embedding of `d[key]` on a Python dict: `KeyError` when the key is
missing, `TypeError` when the subscripted value is not a dict. -/
def Json.getKey : Json → String → Except PyError Json
  | .obj fields, key =>
    match lookupField fields key with
    | some v => .ok v
    | none => .error (.keyError key)
  | _, _ => .error (.typeError "object is not subscriptable")

/-- Embedding of `d.get(key, default)` on a Python dict.  (In the embedded
code this is only ever applied to dicts.) -/
def Json.get (j : Json) (key : String) (default : Json) : Json :=
  match j with
  | .obj fields => (lookupField fields key).getD default
  | _ => default

/-- Python `==` comparison of a decoded value against a string literal, as
used by the `msg_type == "..."` dispatch chain: values of a non-string type
never compare equal to a string. -/
def Json.isStr : Json → String → Bool
  | .str t, s => t == s
  | _, _ => false

/-- Python truthiness of a decoded JSON value (`bool(x)`): `None` and
`False` are falsy, numbers are truthy iff nonzero, strings and dicts are
truthy iff nonempty. -/
def Json.truthy : Json → Bool
  | .null => false
  | .bool b => b
  | .int n => n != 0
  | .str s => !s.isEmpty
  | .obj fields => !fields.isEmpty

/-- Python `str()` of a decoded value as interpolated by an f-string:
`None` prints as `None`, booleans capitalized, strings verbatim.  (The
protocol only ever reaches this with a string or `None` tool name; the
dict rendering is abbreviated since no code path in scope prints one.) -/
def Json.pyStr : Json → String
  | .null => "None"
  | .bool b => if b then "True" else "False"
  | .int n => toString n
  | .str s => s
  | .obj _ => "<dict>"

/-- Digit run for `int(...)` parsing: all characters must be decimal digits
and the run must be nonempty. -/
def parseDigits : List Char → Option Nat
  | [] => none
  | cs =>
    if cs.all (fun c => c.isDigit) then
      some (cs.foldl (fun acc c => acc * 10 + (c.toNat - '0'.toNat)) 0)
    else none

/-- Python `int(s)` on a string: surrounding whitespace is stripped, an
optional sign is allowed, then a nonempty digit run. -/
def pyIntOfString (s : String) : Option Int :=
  match (s.trim).data with
  | '-' :: rest => (parseDigits rest).map (fun n => -(n : Int))
  | '+' :: rest => (parseDigits rest).map (fun n => (n : Int))
  | ds => (parseDigits ds).map (fun n => (n : Int))

/-- Embedding of Python `int(x)` on a decoded JSON value: integers pass
through, booleans coerce to 0/1, numeric strings are parsed, anything else
raises. -/
def Json.pyInt : Json → Except PyError Int
  | .int n => .ok n
  | .bool b => .ok (if b then 1 else 0)
  | .str s =>
    match pyIntOfString s with
    | some n => .ok n
    | none => .error (.valueError ("invalid literal for int() with base 10: " ++ s))
  | .null => .error (.typeError "int() argument must not be NoneType")
  | .obj _ => .error (.typeError "int() argument must not be dict")

/-- Embedding of `.strip()` access: Python raises `AttributeError` when the
receiver is not a string. -/
def Json.pyStrip : Json → Except PyError String
  | .str s => .ok s.trim
  | _ => .error (.attributeError "object has no attribute strip")

/-- Value of one base64 alphabet character. -/
def b64val (c : Char) : Option Nat :=
  if 'A' ≤ c ∧ c ≤ 'Z' then some (c.toNat - 'A'.toNat)
  else if 'a' ≤ c ∧ c ≤ 'z' then some (c.toNat - 'a'.toNat + 26)
  else if '0' ≤ c ∧ c ≤ '9' then some (c.toNat - '0'.toNat + 52)
  else if c = '+' then some 62
  else if c = '/' then some 63
  else none

/-- The pending 6-bit values of the current base64 quantum (the
`quad_pos` counter plus the accumulated bits of `binascii.a2b_base64`). -/
inductive B64Quad where
  | q0
  | q1 (a : Nat)
  | q2 (a b : Nat)
  | q3 (a b c : Nat)

/-- Number of 6-bit values pending in the current quantum. -/
def B64Quad.size : B64Quad → Nat
  | .q0 => 0
  | .q1 _ => 1
  | .q2 _ _ => 2
  | .q3 _ _ _ => 3

/-- Embedding of the non-strict `binascii.a2b_base64` scan that
`base64.b64decode` performs (CPython, `strict_mode=False`): characters
outside the alphabet are discarded; a byte is emitted as soon as the
6-bit value completing it arrives; a `=` is ignored while the current
quantum holds fewer than two values, and otherwise counts toward the
padding that completes the quantum — once `quad_pos + pads` reaches four,
decoding stops successfully and the rest of the input is ignored.  Input
that ends with a quantum of one value is a number-of-data-characters
error, and with a quantum of two or three values an incorrect-padding
error. -/
def a2bBase64 : B64Quad → Nat → List Char → Except PyError (List Nat)
  | quad, _, [] =>
    match quad with
    | .q0 => .ok []
    | .q1 _ => .error (.valueError
        "Invalid base64-encoded string: number of data characters cannot be 1 more than a multiple of 4")
    | _ => .error (.valueError "Incorrect padding")
  | quad, pads, c :: rest =>
    if c = '=' then
      if 2 ≤ quad.size then
        if 4 ≤ quad.size + (pads + 1) then .ok []
        else a2bBase64 quad (pads + 1) rest
      else a2bBase64 quad pads rest
    else
      match b64val c with
      | none => a2bBase64 quad pads rest
      | some v =>
        match quad with
        | .q0 => a2bBase64 (.q1 v) pads rest
        | .q1 a => (a2bBase64 (.q2 a v) pads rest).map
            (fun bs => (a * 4 + v / 16) :: bs)
        | .q2 a b => (a2bBase64 (.q3 a b v) pads rest).map
            (fun bs => ((b % 16) * 16 + v / 4) :: bs)
        | .q3 _ _ c0 => (a2bBase64 .q0 pads rest).map
            (fun bs => ((c0 % 4) * 64 + v) :: bs)

/-- Embedding of `base64.b64decode(s)` on a string argument (default
non-strict mode): the string must be ASCII (it is `.encode(\x27ascii\x27)`-ed
first), then the `a2b_base64` scan runs; under-padded input such as
`AA` or `AAA` is an incorrect-padding error, matching
`binascii.Error: Incorrect padding`. -/
def b64decode (s : String) : Except PyError (List Nat) :=
  if s.data.all (fun c => c.toNat < 128) then a2bBase64 .q0 0 s.data
  else .error (.valueError "string argument should contain only ASCII characters")

/-- A registered client-tool handler: an async function from the parameter
dict to a result value; `Except.error` is the `str()` of an exception the
handler raised. -/
def ToolHandler : Type := List (String × Json) → Except String Json

/-- State of `AsyncClientTools` (`conversation.py` lines 53–97): the
name→handler map and the `_running` gate. -/
structure AsyncClientTools where
  tools : List (String × ToolHandler)
  running : Bool

/-- Embedding of `AsyncClientTools.handle` (`conversation.py` lines
85–97): `RuntimeError` when stopped, `ValueError` for an unregistered (or
non-string) tool name, otherwise the handler is awaited and its result
returned unchanged.  Errors carry `str(e)`. -/
def AsyncClientTools.handle (ct : AsyncClientTools) (tool_name : Json)
    (parameters : List (String × Json)) : Except String Json :=
  if !ct.running then .error "ClientTools is not running"
  else
    match tool_name with
    | .str s =>
      match lookupField ct.tools s with
      | some handler => handler parameters
      | none => .error ("Tool \x27" ++ s ++ "\x27 is not registered")
    | other => .error ("Tool \x27" ++ other.pyStr ++ "\x27 is not registered")

/-- Messages the session sends back over the socket. -/
inductive OutMsg where
  | pong (event_id : Json)
  | clientToolResult (tool_call_id : Json) (result : Json) (is_error : Bool)

/-- Observable effects of the session controller: socket sends, calls into
the audio capability, background tasks spawned for the user callbacks. -/
inductive Effect where
  | audioOutput (pcm : List Nat)
  | audioInterrupt
  | audioStop
  | toolsStop
  | wsSend (m : OutMsg)
  | wsClose
  | taskAgentResponse (text : String)
  | taskCorrection (original corrected : String)
  | taskTranscript (text : String)
  | taskLatency (ms : Int)

/-- Construction-time configuration of `AsyncConversation` that the claims
depend on: the registered tools and which of the four optional user
callbacks were supplied (a `false` flag models passing `None`). -/
structure ConvConfig where
  tools : List (String × ToolHandler)
  cbAgentResponse : Bool
  cbAgentResponseCorrection : Bool
  cbUserTranscript : Bool
  cbLatencyMeasurement : Bool

/-- Mutable state of an `AsyncConversation` plus the run flag of its
`AsyncClientTools` and the socket condition, mirroring the attributes set
in `__init__` (`conversation.py` lines 153–156) and mutated by
`start_session` / `end_session` / `_handle_message`. -/
structure ConvState where
  conversation_id : Option Json
  last_interrupt_id : Int
  running : Bool
  clientToolsRunning : Bool
  wsPresent : Bool
  wsClosed : Bool

/-- State established by `__init__` (`conversation.py` lines 153–156):
no conversation id, interruption watermark 0, not running, tools stopped,
no socket. -/
def initState : ConvState :=
  { conversation_id := none, last_interrupt_id := 0, running := false,
    clientToolsRunning := false, wsPresent := false, wsClosed := false }

/-- State of a freshly started session: `start_session` sets `_running`
(line 163), stores the socket (line 167) and starts the client tools
(line 168); the interruption watermark is still its initial 0. -/
def startedState : ConvState :=
  { initState with running := true, clientToolsRunning := true, wsPresent := true }

/-- Python dict assignment `d[k] = v` on an association list: overwrite in
place when the key exists, append otherwise. -/
def pyDictSet (d : List (String × Json)) (k : String) (v : Json) : List (String × Json) :=
  if (lookupField d k).isSome then
    d.map (fun kv => if kv.1 = k then (kv.1, v) else kv)
  else d ++ [(k, v)]

/-- Embedding of the dict display
`{"tool_call_id": tool_call["tool_call_id"], **tool_call.get("parameters", {})}`
(`conversation.py` lines 265–268): the id entry first, then the supplied
parameter entries merged in order (a later entry overwrites an earlier
one with the same key, Python dict-merge semantics). -/
def buildParams (tcid : Json) (supplied : List (String × Json)) : List (String × Json) :=
  supplied.foldl (fun d kv => pyDictSet d kv.1 kv.2) [("tool_call_id", tcid)]

/-- Canned success message `f"Client tool: {tool_name} called successfully."`
(`conversation.py` line 278). -/
def cannedToolMsg (tool_name : Json) : String :=
  "Client tool: " ++ tool_name.pyStr ++ " called successfully."

/-- Branch of `_handle_message` for `conversation_initiation_metadata`
(`conversation.py` lines 220–222): record the conversation id
(unconditionally — there is no set-once guard in the source). -/
def handleMetadata (st : ConvState) (message : Json) :
    ConvState × List Effect × Option PyError :=
  match message.getKey "conversation_initiation_metadata_event" with
  | .error e => (st, [], some e)
  | .ok event =>
    match event.getKey "conversation_id" with
    | .error e => (st, [], some e)
    | .ok cid => ({ st with conversation_id := some cid }, [], none)

/-- Branch of `_handle_message` for `audio` (`conversation.py` lines
224–229): drop the chunk when its event id is at or below the
interruption watermark, else base64-decode the payload and forward it to
`audio_interface.output`. -/
def handleAudio (st : ConvState) (message : Json) :
    ConvState × List Effect × Option PyError :=
  match message.getKey "audio_event" with
  | .error e => (st, [], some e)
  | .ok event =>
    match event.getKey "event_id" with
    | .error e => (st, [], some e)
    | .ok eid =>
      match eid.pyInt with
      | .error e => (st, [], some e)
      | .ok n =>
        if n ≤ st.last_interrupt_id then (st, [], none)
        else
          match event.getKey "audio_base_64" with
          | .error e => (st, [], some e)
          | .ok payload =>
            match payload with
            | .str s =>
              match b64decode s with
              | .error e => (st, [], some e)
              | .ok pcm => (st, [.audioOutput pcm], none)
            | _ => (st, [], some (.typeError "argument should be a bytes-like object or ASCII string"))

/-- Branch of `_handle_message` for `agent_response` (`conversation.py`
lines 231–233): spawn the response callback as a background task. -/
def handleAgentResponse (st : ConvState) (message : Json) :
    ConvState × List Effect × Option PyError :=
  match message.getKey "agent_response_event" with
  | .error e => (st, [], some e)
  | .ok event =>
    match event.getKey "agent_response" with
    | .error e => (st, [], some e)
    | .ok v =>
      match v.pyStrip with
      | .error e => (st, [], some e)
      | .ok text => (st, [.taskAgentResponse text], none)

/-- Branch of `_handle_message` for `agent_response_correction`
(`conversation.py` lines 235–240). -/
def handleCorrection (st : ConvState) (message : Json) :
    ConvState × List Effect × Option PyError :=
  match message.getKey "agent_response_correction_event" with
  | .error e => (st, [], some e)
  | .ok event =>
    match event.getKey "original_agent_response" with
    | .error e => (st, [], some e)
    | .ok vo =>
      match vo.pyStrip with
      | .error e => (st, [], some e)
      | .ok original =>
        match event.getKey "corrected_agent_response" with
        | .error e => (st, [], some e)
        | .ok vc =>
          match vc.pyStrip with
          | .error e => (st, [], some e)
          | .ok corrected => (st, [.taskCorrection original corrected], none)

/-- Branch of `_handle_message` for `user_transcript` (`conversation.py`
lines 242–244). -/
def handleTranscript (st : ConvState) (message : Json) :
    ConvState × List Effect × Option PyError :=
  match message.getKey "user_transcription_event" with
  | .error e => (st, [], some e)
  | .ok event =>
    match event.getKey "user_transcript" with
    | .error e => (st, [], some e)
    | .ok v =>
      match v.pyStrip with
      | .error e => (st, [], some e)
      | .ok text => (st, [.taskTranscript text], none)

/-- Branch of `_handle_message` for `interruption` (`conversation.py`
lines 246–249): set the watermark to the interruption's event id, then
spawn `audio_interface.interrupt()`. -/
def handleInterruption (st : ConvState) (message : Json) :
    ConvState × List Effect × Option PyError :=
  match message.getKey "interruption_event" with
  | .error e => (st, [], some e)
  | .ok event =>
    match event.getKey "event_id" with
    | .error e => (st, [], some e)
    | .ok eid =>
      match eid.pyInt with
      | .error e => (st, [], some e)
      | .ok n => ({ st with last_interrupt_id := n }, [.audioInterrupt], none)

/-- Branch of `_handle_message` for `ping` (`conversation.py` lines
251–258): send the pong echoing the raw event id, then — only when a
latency callback is registered — read `ping_ms` and, when it is truthy,
spawn the latency callback with `int(ping_ms)`. -/
def handlePing (cfg : ConvConfig) (st : ConvState) (message : Json) :
    ConvState × List Effect × Option PyError :=
  match message.getKey "ping_event" with
  | .error e => (st, [], some e)
  | .ok event =>
    match event.getKey "event_id" with
    | .error e => (st, [], some e)
    | .ok eid =>
      let fx := [Effect.wsSend (.pong eid)]
      if cfg.cbLatencyMeasurement then
        match event.getKey "ping_ms" with
        | .error e => (st, fx, some e)
        | .ok pm =>
          if pm.truthy then
            match pm.pyInt with
            | .error e => (st, fx, some e)
            | .ok ms => (st, fx ++ [.taskLatency ms], none)
          else (st, fx, none)
      else (st, fx, none)

/-- Branch of `_handle_message` for `client_tool_call` (`conversation.py`
lines 260–290): build the parameter dict (tool call id plus supplied
args, raising `KeyError` outside the try block when the id is missing),
run the registry `handle` inside try/except, and — when the session is
still running — send exactly one `client_tool_result` carrying either the
handler result (or the canned message when that result is falsy) or the
`str()` of the failure. -/
def handleToolCall (cfg : ConvConfig) (st : ConvState) (message : Json) :
    ConvState × List Effect × Option PyError :=
  let tool_call := message.get "client_tool_call" (.obj [])
  let tool_name := tool_call.get "tool_name" .null
  match tool_call.getKey "tool_call_id" with
  | .error e => (st, [], some e)
  | .ok tcid =>
    match tool_call.get "parameters" (.obj []) with
    | .obj supplied =>
      let parameters := buildParams tcid supplied
      let sentId := (lookupField parameters "tool_call_id").getD .null
      match AsyncClientTools.handle
          { tools := cfg.tools, running := st.clientToolsRunning }
          tool_name parameters with
      | .ok result =>
        let resultValue := if result.truthy then result else .str (cannedToolMsg tool_name)
        if st.running then
          (st, [.wsSend (.clientToolResult sentId resultValue false)], none)
        else (st, [], none)
      | .error e =>
        if st.running then
          (st, [.wsSend (.clientToolResult sentId (.str e) true)], none)
        else (st, [], none)
    | _ => (st, [], some (.typeError "argument after ** must be a mapping"))

/-- Embedding of `AsyncConversation._handle_message` (`conversation.py`
lines 217–290): read the type tag (a `KeyError` escapes when absent),
then dispatch down the `elif` chain; an unmatched tag falls through with
no effect.  Returns the state after the call (including mutations
performed before a raise), the effects emitted before returning or
raising, and the exception that escaped, if any. -/
def handle_message (cfg : ConvConfig) (st : ConvState) (message : Json) :
    ConvState × List Effect × Option PyError :=
  match message.getKey "type" with
  | .error e => (st, [], some e)
  | .ok msg_type =>
    if msg_type.isStr "conversation_initiation_metadata" then handleMetadata st message
    else if msg_type.isStr "audio" then handleAudio st message
    else if msg_type.isStr "agent_response" && cfg.cbAgentResponse then
      handleAgentResponse st message
    else if msg_type.isStr "agent_response_correction" && cfg.cbAgentResponseCorrection then
      handleCorrection st message
    else if msg_type.isStr "user_transcript" && cfg.cbUserTranscript then
      handleTranscript st message
    else if msg_type.isStr "interruption" then handleInterruption st message
    else if msg_type.isStr "ping" then handlePing cfg st message
    else if msg_type.isStr "client_tool_call" then handleToolCall cfg st message
    else (st, [], none)

/-- Conditions under which the external teardown steps of `end_session`
fail: whether `audio_interface.stop()` raises and whether `ws.close()`
raises (with the `str()` of the exception).  `AsyncClientTools.stop` only
clears a flag and cannot raise. -/
structure TeardownEnv where
  audioStopFails : Option String
  wsCloseFails : Option String

/-- Embedding of `AsyncConversation.end_session` (`conversation.py` lines
205–215): return immediately when not running, otherwise clear the flag,
stop the audio interface, stop the client tools, and close the socket if
one is present and open.  There is no exception handling in the source:
a step that raises aborts the remaining steps and the exception escapes. -/
def end_session (env : TeardownEnv) (st : ConvState) :
    ConvState × List Effect × Option PyError :=
  if !st.running then (st, [], none)
  else
    let st1 : ConvState := { st with running := false }
    match env.audioStopFails with
    | some msg => (st1, [.audioStop], some (.runtimeError msg))
    | none =>
      let st2 : ConvState := { st1 with clientToolsRunning := false }
      if st2.wsPresent && !st2.wsClosed then
        match env.wsCloseFails with
        | some msg => (st2, [.audioStop, .toolsStop, .wsClose], some (.runtimeError msg))
        | none =>
          ({ st2 with wsClosed := true }, [.audioStop, .toolsStop, .wsClose], none)
      else (st2, [.audioStop, .toolsStop], none)

/-- Embedding of the receive loop body (`conversation.py` lines 193–203)
over the finite list of messages that arrive: for each arrived message the
running flag is checked (`break` when cleared), then `_handle_message`
runs; an exception escaping it is caught by the `except Exception` arm,
which logs and calls `end_session`, terminating the loop. -/
def processMessages (env : TeardownEnv) (cfg : ConvConfig) :
    ConvState → List Json → ConvState × List Effect
  | st, [] => (st, [])
  | st, m :: rest =>
    if !st.running then (st, [])
    else
      match handle_message cfg st m with
      | (st1, fx, none) =>
        let r := processMessages env cfg st1 rest
        (r.1, fx ++ r.2)
      | (st1, fx, some _) =>
        let r := end_session env st1
        (r.1, fx ++ r.2.1)

/-- Outcome of one attempt of the receive step `async for message in ws`
(`conversation.py` lines 194–196) given whether a message arrives. -/
inductive RecvOutcome where
  | blocked
  | exited
  | handled
deriving DecidableEq

/-- One step of the receive loop head: `async for message in ws` has no
timeout, so with no inbound message the step stays blocked in the receive
without consulting the running flag; when a message arrives, the flag is
checked — `break` (exit) when cleared, otherwise the message is handled. -/
def recvStep (running : Bool) (arrival : Option Json) : RecvOutcome :=
  match arrival with
  | none => .blocked
  | some _ => if running then .handled else .exited

/-- The decoded audio payloads forwarded to `audio_interface.output` by a
run of the controller. -/
def audioOutputs (fx : List Effect) : List (List Nat) :=
  fx.filterMap (fun e => match e with | .audioOutput pcm => some pcm | _ => none)

/-- The latency values delivered to the latency callback by a run of the
controller. -/
def latencyNotifications (fx : List Effect) : List Int :=
  fx.filterMap (fun e => match e with | .taskLatency ms => some ms | _ => none)

/-- Embedding of `AsyncDefaultAudioInterface.interrupt` (`audio.py` lines
108–114): repeatedly `get_nowait` the playback queue; on the empty queue
`get_nowait` raises `queue.Empty`, which the `except` arm catches and
ignores.  The boolean records whether an exception escaped the method
(the only raisable exception, `queue.Empty`, is always caught). -/
def audioInterfaceInterrupt {α : Type} : List α → List α × Bool
  | [] => ([], false)
  | _ :: rest => audioInterfaceInterrupt rest

/-- The type tags the dispatch chain of `_handle_message` recognizes. -/
def recognizedTypes : List String :=
  ["conversation_initiation_metadata", "audio", "agent_response",
   "agent_response_correction", "user_transcript", "interruption", "ping",
   "client_tool_call"]

/-- A configuration with no registered tools and all four callbacks
supplied, for concrete instantiations. -/
def cfg0 : ConvConfig :=
  { tools := [], cbAgentResponse := true, cbAgentResponseCorrection := true,
    cbUserTranscript := true, cbLatencyMeasurement := true }

/-- An inbound audio event envelope. -/
def audioMsg (eid : Int) (payload : String) : Json :=
  .obj [("type", .str "audio"),
    ("audio_event", .obj [("event_id", .int eid), ("audio_base_64", .str payload)])]

/-- An inbound ping event envelope with the given `ping_ms` value. -/
def pingMsg (eid : Int) (pm : Json) : Json :=
  .obj [("type", .str "ping"),
    ("ping_event", .obj [("event_id", .int eid), ("ping_ms", pm)])]

/-- An inbound ping event envelope with no `ping_ms` key at all. -/
def pingMsgNoMs (eid : Int) : Json :=
  .obj [("type", .str "ping"), ("ping_event", .obj [("event_id", .int eid)])]

/-- An inbound metadata event envelope. -/
def metadataMsg (cid : String) : Json :=
  .obj [("type", .str "conversation_initiation_metadata"),
    ("conversation_initiation_metadata_event", .obj [("conversation_id", .str cid)])]

/-- An inbound client tool call envelope. -/
def toolCallMsg (tcid tname : Json) (supplied : List (String × Json)) : Json :=
  .obj [("type", .str "client_tool_call"),
    ("client_tool_call", .obj [("tool_call_id", tcid), ("tool_name", tname),
      ("parameters", .obj supplied)])]

/-- A message whose type tag matches no recognized event type. -/
def unknownMsg : Json := .obj [("type", .str "weird_event")]

/-- An audio-typed message whose body is missing the expected
`audio_event` field. -/
def badAudioMsg : Json := .obj [("type", .str "audio")]

/-- Teardown conditions under which no cleanup step fails. -/
def envOk : TeardownEnv := { audioStopFails := none, wsCloseFails := none }

/-- Teardown conditions under which `audio_interface.stop()` raises. -/
def envAudioFail : TeardownEnv := { audioStopFails := some "boom", wsCloseFails := none }

/-- A running session that already recorded a conversation id. -/
def stWithConv : ConvState := { startedState with conversation_id := some (.str "conv_a") }

/-- A handler that returns the integer 0 (a falsy, non-`None` value). -/
def zeroTool : ToolHandler := fun _ => .ok (.int 0)

/-- A handler that returns the truthy string result `done`. -/
def okTool : ToolHandler := fun _ => .ok (.str "done")

/-- Configuration with the falsy-returning tool registered. -/
def toolCfg : ConvConfig := { cfg0 with tools := [("zeroTool", zeroTool)] }

/-- Configuration with the truthy-returning tool registered. -/
def toolCfgW : ConvConfig := { cfg0 with tools := [("okTool", okTool)] }

/-! Helper lemmas shared by the claim theorems. -/

/-- After any call of `end_session` the running flag is cleared (it is the
first thing the method clears, before any step that can raise). -/
lemma end_session_result_running (env : TeardownEnv) (st : ConvState) :
    (end_session env st).1.running = false := by
  unfold end_session
  split
  · next h => simpa using h
  · dsimp only
    repeat' split
    all_goals rfl

/-- On a session that is not running, `end_session` returns immediately
with no effects and no exception. -/
lemma end_session_noop (env : TeardownEnv) {st : ConvState} (h : st.running = false) :
    end_session env st = (st, [], none) := by
  unfold end_session
  rw [h]
  rfl

/-- Claim C9: for every state of the playback queue, calling `interrupt()`
on the audio capability leaves the queue empty and never raises an
exception, including when the queue is already empty at the time of the
call. -/
theorem c9_interrupt_empties_queue (q : List (List Nat)) :
    audioInterfaceInterrupt q = ([], false) := by
  induction q with
  | nil => rfl
  | cons a rest ih => simpa [audioInterfaceInterrupt] using ih

/-- Claim C7: calling `end_session` twice in succession has the same
observable effect as calling it once — the second call, on the
already-ended session, returns the state unchanged, performs no effects
on the audio capability, the tool registry or the socket, and raises
nothing. -/
theorem c7_end_session_idempotent (env : TeardownEnv) (st : ConvState) :
    end_session env (end_session env st).1 = ((end_session env st).1, [], none) :=
  end_session_noop env (end_session_result_running env st)

/-- Claim C2 counterexample: with `audio_interface.stop()` raising on a
running session, `end_session` performs only the audio-stop attempt — the
tool registry is left running, the socket close is never attempted, and
the exception escapes to the caller, refuting both the all-three-attempted
and the never-raises parts of the claim. -/
theorem c2_counterexample :
    (end_session envAudioFail startedState).2.1 = [Effect.audioStop] ∧
    (end_session envAudioFail startedState).1.clientToolsRunning = true ∧
    (end_session envAudioFail startedState).2.2 = some (.runtimeError "boom") :=
  ⟨rfl, rfl, rfl⟩

/-- Claim C2 (amended): `end_session` on a running session runs its
cleanup steps in sequence with no failure isolation — if stopping the
audio capability raises, the tool registry is not stopped, the socket is
not closed, and the exception propagates to the caller (only the running
flag, cleared first, takes effect); when no step fails, all three cleanup
steps are performed and no exception escapes. -/
theorem c2_end_session_sequential_teardown (env : TeardownEnv) (st : ConvState)
    (h : st.running = true) :
    (∀ msg, env.audioStopFails = some msg →
      end_session env st
        = ({ st with running := false }, [.audioStop], some (.runtimeError msg))) ∧
    (env.audioStopFails = none → env.wsCloseFails = none →
      st.wsPresent = true → st.wsClosed = false →
      end_session env st
        = ({ st with running := false, clientToolsRunning := false, wsClosed := true },
            [.audioStop, .toolsStop, .wsClose], none)) := by
  constructor
  · intro msg hmsg
    unfold end_session
    rw [h, hmsg]
    rfl
  · intro ha hw hp hc
    unfold end_session
    rw [h, ha]
    dsimp only
    rw [hp, hc, hw]
    rfl

/-- Claim C2 witness: the amended theorem applied to a concrete running
session, once under a failing audio stop and once under a clean teardown. -/
theorem c2_witness :
    end_session envAudioFail startedState
      = ({ startedState with running := false }, [.audioStop], some (.runtimeError "boom")) ∧
    end_session envOk startedState
      = ({ startedState with running := false, clientToolsRunning := false, wsClosed := true },
          [.audioStop, .toolsStop, .wsClose], none) :=
  ⟨(c2_end_session_sequential_teardown envAudioFail startedState rfl).1 "boom" rfl,
   (c2_end_session_sequential_teardown envOk startedState rfl).2 rfl rfl rfl rfl⟩

/-- Claim C5 counterexample: with the running flag already cleared by
`end_session` and no message arriving on the socket, the receive step of
the loop stays blocked — `async for` has no poll timeout, so the cleared
flag is not observed within any bounded interval, refuting the claim. -/
theorem c5_counterexample :
    recvStep false none = .blocked ∧ RecvOutcome.blocked ≠ RecvOutcome.exited := by
  decide

/-- Claim C5 (amended): the receive loop consults the running flag only
when a message arrives — after `end_session` the loop exits at the next
arrival, but with no inbound message the receive step blocks indefinitely
without re-checking the flag. -/
theorem c5_recv_checks_flag_only_on_arrival :
    (∀ m : Json, recvStep false (some m) = .exited) ∧
    (∀ running : Bool, recvStep running none = .blocked) ∧
    (∀ m : Json, recvStep true (some m) = .handled) :=
  ⟨fun _ => rfl, fun _ => rfl, fun _ => rfl⟩

/-- Claim C6 counterexample: a session that already stored conversation
id `conv_a` handles a second metadata event carrying `conv_b` and ends up
storing `conv_b` — the stored identifier changes and no warning effect is
produced, refuting the set-at-most-once claim. -/
theorem c6_counterexample :
    (handle_message cfg0 stWithConv (metadataMsg "conv_b")).1.conversation_id
      = some (.str "conv_b") ∧
    some (Json.str "conv_b") ≠ some (Json.str "conv_a") ∧
    (handle_message cfg0 stWithConv (metadataMsg "conv_b")).2.1 = [] := by
  refine ⟨rfl, ?_, rfl⟩
  intro h
  injection h with h1
  injection h1 with h2
  exact absurd h2 (by decide)

/-- Claim C6 (amended): the conversation identifier is overwritten by
every metadata event — handling such an event unconditionally stores that
event's `conversation_id`, so a later metadata event replaces the earlier
identifier; no warning is produced and no exception is raised. -/
theorem c6_metadata_overwrites (cfg : ConvConfig) (st : ConvState) (m ev cid : Json)
    (hty : m.getKey "type" = .ok (.str "conversation_initiation_metadata"))
    (hev : m.getKey "conversation_initiation_metadata_event" = .ok ev)
    (hcid : ev.getKey "conversation_id" = .ok cid) :
    handle_message cfg st m = ({ st with conversation_id := some cid }, [], none) := by
  simp only [handle_message, handleMetadata, hty, hev, hcid]
  rfl

/-- Claim C6 witness: the amended theorem applied to a fresh session and
a concrete metadata event. -/
theorem c6_witness :
    handle_message cfg0 startedState (metadataMsg "conv_x")
      = ({ startedState with conversation_id := some (.str "conv_x") }, [], none) :=
  c6_metadata_overwrites cfg0 startedState (metadataMsg "conv_x")
    (.obj [("conversation_id", .str "conv_x")]) (.str "conv_x") rfl rfl rfl

/-- Claim C8: handling a ping with event id 42 and `ping_ms` 120, with a
latency callback registered, sends exactly one pong echoing event id 42
and spawns the latency callback exactly once with 120; a ping whose
`ping_ms` is null still produces the pong but no latency notification
(and a ping missing the `ping_ms` key also produces the pong and no
latency notification, the lookup raising after the pong is sent). -/
theorem c8_ping_pong_latency (cfg : ConvConfig) (st : ConvState)
    (h : cfg.cbLatencyMeasurement = true) :
    handle_message cfg st (pingMsg 42 (.int 120))
      = (st, [.wsSend (.pong (.int 42)), .taskLatency 120], none) ∧
    handle_message cfg st (pingMsg 42 .null)
      = (st, [.wsSend (.pong (.int 42))], none) ∧
    handle_message cfg st (pingMsgNoMs 42)
      = (st, [.wsSend (.pong (.int 42))], some (.keyError "ping_ms")) := by
  refine ⟨?_, ?_, ?_⟩ <;>
    · simp only [handle_message, handlePing, pingMsg, pingMsgNoMs, h]
      rfl

/-- Claim C8 witness: the theorem applied to a concrete running session
with all callbacks registered. -/
theorem c8_witness :
    handle_message cfg0 startedState (pingMsg 42 (.int 120))
      = (startedState, [.wsSend (.pong (.int 42)), .taskLatency 120], none) ∧
    handle_message cfg0 startedState (pingMsg 42 .null)
      = (startedState, [.wsSend (.pong (.int 42))], none) ∧
    handle_message cfg0 startedState (pingMsgNoMs 42)
      = (startedState, [.wsSend (.pong (.int 42))], some (.keyError "ping_ms")) :=
  c8_ping_pong_latency cfg0 startedState rfl

/-- Claim C10: in a freshly started session the interruption watermark is
its initial 0, and an inbound audio event whose event id is at most 0 is
silently dropped — the handler returns with no output effect and no
error, because the drop comparison is non-strict. -/
theorem c10_fresh_session_drops_nonpositive (cfg : ConvConfig) (m ev eid : Json)
    (n : Int)
    (hty : m.getKey "type" = .ok (.str "audio"))
    (hev : m.getKey "audio_event" = .ok ev)
    (heid : ev.getKey "event_id" = .ok eid)
    (hn : eid.pyInt = .ok n)
    (hle : n ≤ 0) :
    startedState.last_interrupt_id = 0 ∧
    handle_message cfg startedState m = (startedState, [], none) := by
  refine ⟨rfl, ?_⟩
  have hle0 : n ≤ startedState.last_interrupt_id := hle
  simp only [handle_message, handleAudio, hty, hev, heid, hn]
  rw [if_pos hle0]
  rfl

/-- Claim C10 witness: the theorem applied to a fresh session and an
audio event with event id 0. -/
theorem c10_witness :
    handle_message cfg0 startedState (audioMsg 0 "AAAA") = (startedState, [], none) :=
  (c10_fresh_session_drops_nonpositive cfg0 (audioMsg 0 "AAAA")
    (.obj [("event_id", .int 0), ("audio_base_64", .str "AAAA")]) (.int 0) 0
    rfl rfl rfl rfl (by decide)).2

/-- Claim C3 counterexample: an audio-typed message missing its
`audio_event` body raises a `KeyError` out of the handler, and the
receive loop reacts by ending the session (the running flag is cleared),
refuting the session-continues part of the claim. -/
theorem c3_counterexample :
    (handle_message cfg0 startedState badAudioMsg).2.2 = some (.keyError "audio_event") ∧
    (processMessages envOk cfg0 startedState [badAudioMsg]).1.running = false :=
  ⟨rfl, rfl⟩

/-- Claim C3 (amended): a message whose type tag is unknown is ignored
without any effect on session state and the session continues; but an
event of a recognized type whose body is missing expected fields raises
out of the handler, and the receive loop's catch-all arm logs it and ends
the session — only unknown tags, not malformed recognized events, leave
the session running. -/
theorem c3_unknown_ignored_malformed_ends_session :
    (∀ (cfg : ConvConfig) (st : ConvState) (m : Json) (t : String),
      m.getKey "type" = .ok (.str t) → t ∉ recognizedTypes →
      handle_message cfg st m = (st, [], none)) ∧
    (∀ (env : TeardownEnv) (cfg : ConvConfig) (st st1 : ConvState) (m : Json)
      (rest : List Json) (fx : List Effect) (e : PyError),
      st.running = true →
      handle_message cfg st m = (st1, fx, some e) →
      processMessages env cfg st (m :: rest)
        = ((end_session env st1).1, fx ++ (end_session env st1).2.1) ∧
      (processMessages env cfg st (m :: rest)).1.running = false) := by
  constructor
  · intro cfg st m t hty hnot
    simp only [recognizedTypes, List.mem_cons, List.not_mem_nil, or_false, not_or] at hnot
    obtain ⟨h1, h2, h3, h4, h5, h6, h7, h8⟩ := hnot
    simp only [handle_message, hty, Json.isStr]
    simp [beq_eq_false_iff_ne.mpr h1, beq_eq_false_iff_ne.mpr h2, beq_eq_false_iff_ne.mpr h3,
      beq_eq_false_iff_ne.mpr h4, beq_eq_false_iff_ne.mpr h5, beq_eq_false_iff_ne.mpr h6,
      beq_eq_false_iff_ne.mpr h7, beq_eq_false_iff_ne.mpr h8]
  · intro env cfg st st1 m rest fx e hrun hhm
    have hmain : processMessages env cfg st (m :: rest)
        = ((end_session env st1).1, fx ++ (end_session env st1).2.1) := by
      unfold processMessages
      rw [hrun, hhm]
      rfl
    exact ⟨hmain, by rw [hmain]; exact end_session_result_running env st1⟩

/-- Claim C3 witness: the amended theorem applied to an unknown-tag
message (ignored, no state change) and to the malformed audio message
(handler raises, loop ends the session). -/
theorem c3_witness :
    handle_message cfg0 startedState unknownMsg = (startedState, [], none) ∧
    processMessages envOk cfg0 startedState [badAudioMsg]
      = ((end_session envOk startedState).1, [] ++ (end_session envOk startedState).2.1) :=
  ⟨c3_unknown_ignored_malformed_ends_session.1 cfg0 startedState unknownMsg
      "weird_event" rfl (by decide),
   (c3_unknown_ignored_malformed_ends_session.2 envOk cfg0 startedState startedState
      badAudioMsg [] [] (.keyError "audio_event") rfl rfl).1⟩

/-- Replacing the value stored at a key other than the one looked up does
not change an association-list lookup. -/
lemma lookupField_map_set {d : List (String × Json)} {k k0 : String} {v : Json}
    (hne : k ≠ k0) :
    lookupField (d.map (fun kv => if kv.1 = k then (kv.1, v) else kv)) k0
      = lookupField d k0 := by
  induction d with
  | nil => rfl
  | cons a rest ih =>
    obtain ⟨ak, av⟩ := a
    simp only [List.map_cons]
    by_cases hak : ak = k
    · subst hak
      rw [if_pos rfl]
      unfold lookupField
      rw [if_neg hne, if_neg hne]
      exact ih
    · rw [if_neg hak]
      unfold lookupField
      by_cases hk0 : ak = k0
      · rw [if_pos hk0, if_pos hk0]
      · rw [if_neg hk0, if_neg hk0]
        exact ih

/-- Appending an entry under a different key does not change an
association-list lookup. -/
lemma lookupField_append_single {d : List (String × Json)} {k k0 : String} {v : Json}
    (hne : k ≠ k0) :
    lookupField (d ++ [(k, v)]) k0 = lookupField d k0 := by
  induction d with
  | nil => simp [lookupField, hne]
  | cons a rest ih =>
    by_cases h : a.1 = k0 <;> simp_all [lookupField]

/-- A Python dict assignment under a different key does not change a
lookup. -/
lemma lookupField_pyDictSet_ne {d : List (String × Json)} {k k0 : String} {v : Json}
    (hne : k ≠ k0) :
    lookupField (pyDictSet d k v) k0 = lookupField d k0 := by
  unfold pyDictSet
  split
  · exact lookupField_map_set hne
  · exact lookupField_append_single hne

/-- A lookup that misses means no entry of the list carries that key. -/
lemma lookupField_eq_none_forall {α : Type} {l : List (String × α)} {key : String}
    (h : lookupField l key = none) : ∀ p ∈ l, p.1 ≠ key := by
  induction l with
  | nil => simp
  | cons a rest ih =>
    intro p hp
    unfold lookupField at h
    split at h
    · exact absurd h (by simp)
    · next hcond =>
      rcases List.mem_cons.mp hp with rfl | hpr
      · exact hcond
      · exact ih h p hpr

/-- Merging supplied parameter entries, none of them keyed
`tool_call_id`, preserves the lookup of `tool_call_id`. -/
lemma lookupField_buildParams_foldl {supplied : List (String × Json)} :
    ∀ d : List (String × Json), (∀ p ∈ supplied, p.1 ≠ "tool_call_id") →
      lookupField (supplied.foldl (fun d kv => pyDictSet d kv.1 kv.2) d) "tool_call_id"
        = lookupField d "tool_call_id" := by
  induction supplied with
  | nil => intro d _; rfl
  | cons a rest ih =>
    intro d hall
    rw [List.foldl_cons, ih _ (fun p hp => hall p (List.mem_cons_of_mem a hp)),
      lookupField_pyDictSet_ne (hall a (List.mem_cons_self a rest))]

/-- When the supplied parameters carry no `tool_call_id` key, the merged
parameter dict still maps `tool_call_id` to the call's own id. -/
lemma lookupField_buildParams_tcid {tcid : Json} {supplied : List (String × Json)}
    (h : lookupField supplied "tool_call_id" = none) :
    lookupField (buildParams tcid supplied) "tool_call_id" = some tcid := by
  unfold buildParams
  rw [lookupField_buildParams_foldl _ (lookupField_eq_none_forall h)]
  rfl

/-- Claim C4 counterexample: a registered handler returns the integer 0 —
a value, not nothing — yet the result message carries the canned
called-successfully string instead of the handler's result, because the
source substitutes the canned message for any falsy result, refuting the
only-when-the-handler-returned-nothing part of the claim. -/
theorem c4_counterexample :
    AsyncClientTools.handle
        { tools := toolCfg.tools, running := startedState.clientToolsRunning }
        (.str "zeroTool") (buildParams (.str "abc") []) = .ok (.int 0) ∧
    handle_message toolCfg startedState (toolCallMsg (.str "abc") (.str "zeroTool") [])
      = (startedState, [.wsSend (.clientToolResult (.str "abc")
          (.str "Client tool: zeroTool called successfully.") false)], none) ∧
    Json.str "Client tool: zeroTool called successfully." ≠ Json.int 0 :=
  ⟨rfl, rfl, fun h => Json.noConfusion h⟩

/-- Claim C4 (amended): for every tool-call event handled while the
session is running whose supplied parameters do not themselves contain a
`tool_call_id` key, exactly one `client_tool_result` message is sent
back carrying the call's `tool_call_id`: when the registry's `handle`
succeeds it has `is_error` false and carries the handler's result when
that result is truthy, falling back to the canned called-successfully
message when the result is falsy (`None`, 0, `False`, an empty string or
mapping); on any failure of `handle` — including an unregistered tool
name or a handler exception — it has `is_error` true and carries the
failure description. -/
theorem c4_tool_call_exactly_one_result (cfg : ConvConfig) (st : ConvState)
    (tcid tname : Json) (supplied : List (String × Json))
    (hrun : st.running = true)
    (hnokey : lookupField supplied "tool_call_id" = none) :
    (∀ v, AsyncClientTools.handle { tools := cfg.tools, running := st.clientToolsRunning }
        tname (buildParams tcid supplied) = .ok v →
      handle_message cfg st (toolCallMsg tcid tname supplied)
        = (st, [.wsSend (.clientToolResult tcid
            (if v.truthy then v else .str (cannedToolMsg tname)) false)], none)) ∧
    (∀ e, AsyncClientTools.handle { tools := cfg.tools, running := st.clientToolsRunning }
        tname (buildParams tcid supplied) = .error e →
      handle_message cfg st (toolCallMsg tcid tname supplied)
        = (st, [.wsSend (.clientToolResult tcid (.str e) true)], none)) := by
  have h1 : (toolCallMsg tcid tname supplied).getKey "type"
      = .ok (.str "client_tool_call") := rfl
  have h2 : (toolCallMsg tcid tname supplied).get "client_tool_call" (.obj [])
      = .obj [("tool_call_id", tcid), ("tool_name", tname), ("parameters", .obj supplied)] := rfl
  have h3 : (Json.obj [("tool_call_id", tcid), ("tool_name", tname),
      ("parameters", .obj supplied)]).getKey "tool_call_id" = .ok tcid := rfl
  have h4 : (Json.obj [("tool_call_id", tcid), ("tool_name", tname),
      ("parameters", .obj supplied)]).get "tool_name" .null = tname := rfl
  have h5 : (Json.obj [("tool_call_id", tcid), ("tool_name", tname),
      ("parameters", .obj supplied)]).get "parameters" (.obj []) = .obj supplied := rfl
  have hsent : (lookupField (buildParams tcid supplied) "tool_call_id").getD Json.null
      = tcid := by
    rw [lookupField_buildParams_tcid hnokey]
    rfl
  constructor
  · intro v hv
    simp only [handle_message, handleToolCall, h1, h2, h3, h4, h5, hsent, hv, hrun]
    rfl
  · intro e he
    simp only [handle_message, handleToolCall, h1, h2, h3, h4, h5, hsent, he, hrun]
    rfl

/-- Claim C4 witness: the amended theorem applied on a running session to
a registered tool returning the truthy string `done` (carried through
with `is_error` false) and to the unregistered tool name `unknownTool`
(error result with `is_error` true and the failure description). -/
theorem c4_witness :
    handle_message toolCfgW startedState (toolCallMsg (.str "abc") (.str "okTool") [])
      = (startedState, [.wsSend (.clientToolResult (.str "abc") (.str "done") false)], none) ∧
    handle_message toolCfgW startedState (toolCallMsg (.str "abc") (.str "unknownTool") [])
      = (startedState, [.wsSend (.clientToolResult (.str "abc")
          (.str "Tool \x27unknownTool\x27 is not registered") true)], none) :=
  ⟨(c4_tool_call_exactly_one_result toolCfgW startedState (.str "abc") (.str "okTool")
      [] rfl rfl).1 (.str "done") rfl,
   (c4_tool_call_exactly_one_result toolCfgW startedState (.str "abc") (.str "unknownTool")
      [] rfl rfl).2 "Tool \x27unknownTool\x27 is not registered" rfl⟩

end Milo
